import Mathlib

/-!
Shallow embedding of the credential-lifecycle core of `claude_code_internal`:
the auth server (`servers/auth.py`), the gateway auth guard
(`servers/llm_gateway.py`) and the client token cache (`client/agent.py`).

JWTs are modelled symbolically: a token records its header algorithm, an
optional key id, its claims, and a signature descriptor saying which key
material verifies it under which algorithm family.  `jwt.encode(payload,
secret, "HS256")` becomes a `Jwt` value whose `sig` is `Sig.hmac secret`;
`jwt.decode(token, key, algorithms=[...])` becomes a function that rejects
the token when its header algorithm is not in the allowed list, when the
signature does not verify under the supplied key material, or when it is
expired — mirroring PyJWT's behaviour.  Network I/O (httpx) is abstracted
into an environment record of fetch outcomes, and the module-level TTL
caches into an explicit cache-state value threaded through the functions.
-/

namespace ClaudeCodeInternal

/-- JWT signature algorithms used by the system (HS256 for internal tokens,
RS256 for the external issuer). -/
inductive Alg
  | HS256
  | RS256
deriving DecidableEq, Repr

/-- Symbolic signature: `rsa m` is an RS256 signature that verifies under the
public-key material `m`; `hmac m` is an HS256 MAC computed over the key
material `m`.  Representing both over raw key-material strings lets the model
express the algorithm-confusion attack, where an HMAC is computed using a
public key's material as the symmetric secret. -/
inductive Sig
  | rsa (material : String)
  | hmac (material : String)
deriving DecidableEq, Repr

/-- Signature verification: the algorithm family selects how the key material
is interpreted, exactly as in a JWT library. -/
def verifySig : Alg → String → Sig → Bool
  | .RS256, m, .rsa m2 => m = m2
  | .HS256, m, .hmac m2 => m = m2
  | _, _, _ => false

/-- A JWT over a claims type `C`.  `wellFormed = false` models a string that
`jwt.get_unverified_header` / `jwt.decode` cannot parse at all. -/
structure Jwt (C : Type) where
  wellFormed : Bool := true
  alg : Alg
  kid : Option String := none
  claims : C
  sig : Sig
deriving DecidableEq, Repr

/-- Claims of an internally minted token (`auth.py:_issue_internal_tokens`).
`device_id = none` models the JSON key being absent; `some v` models the key
being present with value `v` (where `v = none` is JSON `null`, i.e. Python
`None`). -/
structure InternalClaims where
  sub : Option String := none
  device_id : Option (Option String) := none
  typ : Option String := none
  exp : Int
deriving DecidableEq, Repr

/-- Errors raised by symbolic `jwt.decode` (collapsing PyJWT's error classes
to the distinctions the code observes). -/
inductive JwtError
  | invalidToken
  | expired
deriving DecidableEq, Repr

/-- Source `jwt.decode(token, secret, algorithms=...)` for internal tokens: reject a
malformed token, a header algorithm outside the allowed list, a bad
signature, or an expired token; otherwise return the claims. -/
def jwtDecode (tok : Jwt InternalClaims) (secret : String) (algorithms : List Alg)
    (now : Int) : Except JwtError InternalClaims :=
  if !tok.wellFormed then .error .invalidToken
  else if !(algorithms.contains tok.alg) then .error .invalidToken
  else if !(verifySig tok.alg secret tok.sig) then .error .invalidToken
  else if tok.claims.exp ≤ now then .error .expired
  else .ok tok.claims

/-- Python truthiness of an optional string (`None` and `""` are falsy). -/
def pyTruthy : Option String → Bool
  | none => false
  | some s => s ≠ ""

/-- Python `a or b` on optional strings. -/
def pyOr (a b : Option String) : Option String :=
  if pyTruthy a then a else b

-- ── Auth server (`servers/auth.py`) ────────────────────────────────────────

/-- Errors an endpoint handler can produce: an explicit `HTTPException`
(status + detail, with the dynamic `{exc}` suffix of the detail dropped), or
an unhandled upstream transport error (`httpx.raise_for_status`). -/
inductive AuthErr
  | http (status : Nat) (detail : String)
  | upstream
deriving DecidableEq, Repr

/-- Configuration values read from the environment in `config.py`, as seen by
the auth server.  `INTERNAL_JWT_ALG` is the constant `"HS256"`. -/
structure AuthConfig where
  ENTRA_TENANT_ID : String
  ENTRA_CLIENT_ID : String
  INTERNAL_JWT_SECRET : String
  INTERNAL_JWT_TTL_HOURS : Int
  INTERNAL_REFRESH_TTL_DAYS : Int
  OPENID_CACHE_TTL_SECONDS : Int
deriving DecidableEq, Repr

/-- Source `INTERNAL_JWT_ALG = "HS256"` (`config.py:29`). -/
def INTERNAL_JWT_ALG : Alg := .HS256

/-- The OpenID discovery document, reduced to the field the code reads. -/
structure OpenidConfiguration where
  jwks_uri : String
deriving DecidableEq, Repr

/-- One entry of the JSON Web Key Set: its `kid` and the public-key material
`jwt.algorithms.RSAAlgorithm.from_jwk` builds from it. -/
structure Jwk where
  kid : Option String := none
  material : String
deriving DecidableEq, Repr

/-- The key set document (`jwks.get("keys", [])`). -/
structure Jwks where
  keys : List Jwk := []
deriving DecidableEq, Repr

/-- Outcomes of the two upstream fetches the auth server performs
(`httpx.get` of the discovery document and of the JWKS URI); an `error`
models a transport/HTTP failure raised by `raise_for_status`. -/
structure NetEnv where
  openidFetch : Except Unit OpenidConfiguration
  jwksFetch : String → Except Unit Jwks

/-- The module-level TTL caches `_openid_config_cache` / `_jwks_cache`
(each holds at most the one key the code uses, paired with the
`time.monotonic()` stamp at which it was stored). -/
structure CacheState where
  openidCache : Option (OpenidConfiguration × Int) := none
  jwksCache : Option (Jwks × Int) := none

/-- Source `_is_cache_valid`: the entry exists and has not outlived the TTL. -/
def _is_cache_valid {α : Type} (entry : Option (α × Int)) (ttl nowMono : Int) : Bool :=
  match entry with
  | none => false
  | some (_, ts) => nowMono - ts < ttl

/-- Source `_get_openid_config`: refuse to operate under placeholder configuration
(HTTP 500), then serve the cached discovery document or fetch and cache it. -/
def _get_openid_config (cfg : AuthConfig) (env : NetEnv) (st : CacheState)
    (nowMono : Int) : Except AuthErr (OpenidConfiguration × CacheState) :=
  if cfg.ENTRA_TENANT_ID = "" ∨ cfg.ENTRA_TENANT_ID = "YOUR_TENANT_ID" ∨
      cfg.ENTRA_CLIENT_ID = "" ∨ cfg.ENTRA_CLIENT_ID = "YOUR_APP_REGISTRATION_CLIENT_ID" then
    .error (.http 500 "Auth server is not configured (ENTRA_TENANT_ID/ENTRA_CLIENT_ID)")
  else if cfg.INTERNAL_JWT_SECRET = "" ∨ cfg.INTERNAL_JWT_SECRET = "CHANGE_ME_INTERNAL_JWT_SECRET" then
    .error (.http 500 "Auth server is not configured (INTERNAL_JWT_SECRET)")
  else if _is_cache_valid st.openidCache cfg.OPENID_CACHE_TTL_SECONDS nowMono then
    match st.openidCache with
    | some (data, _) => .ok (data, st)
    | none => .error .upstream
  else
    match env.openidFetch with
    | .error _ => .error .upstream
    | .ok data => .ok (data, { st with openidCache := some (data, nowMono) })

/-- Source `_get_jwks`: serve the cached key set if still valid (note: this check
runs before any configuration guard), else fetch the discovery document and
then the key set, caching the result. -/
def _get_jwks (cfg : AuthConfig) (env : NetEnv) (st : CacheState)
    (nowMono : Int) : Except AuthErr (Jwks × CacheState) :=
  if _is_cache_valid st.jwksCache cfg.OPENID_CACHE_TTL_SECONDS nowMono then
    match st.jwksCache with
    | some (data, _) => .ok (data, st)
    | none => .error .upstream
  else
    match _get_openid_config cfg env st nowMono with
    | .error e => .error e
    | .ok (config, st1) =>
      match env.jwksFetch config.jwks_uri with
      | .error _ => .error .upstream
      | .ok data => .ok (data, { st1 with jwksCache := some (data, nowMono) })

/-- Claims of an externally issued (Entra ID) token, reduced to the fields
the code reads or that `jwt.decode` validates. -/
structure ExtClaims where
  oid : Option String := none
  sub : Option String := none
  aud : String
  iss : String
  exp : Int
deriving DecidableEq, Repr

/-- Source `jwt.decode(id_token, key, algorithms, audience, issuer)` for external
tokens: checks well-formedness, allowed algorithm, signature, expiry,
audience and issuer. -/
def jwtDecodeExt (tok : Jwt ExtClaims) (keyMaterial : String) (algorithms : List Alg)
    (audience issuer : String) (now : Int) : Except JwtError ExtClaims :=
  if !tok.wellFormed then .error .invalidToken
  else if !(algorithms.contains tok.alg) then .error .invalidToken
  else if !(verifySig tok.alg keyMaterial tok.sig) then .error .invalidToken
  else if tok.claims.exp ≤ now then .error .expired
  else if tok.claims.aud ≠ audience then .error .invalidToken
  else if tok.claims.iss ≠ issuer then .error .invalidToken
  else .ok tok.claims

/-- Source `_validate_entra_token`: fetch the key set, read the unverified header,
require a `kid`, select the matching key, and decode pinned to RS256 with
the expected audience and issuer.  All token failures surface as 401. -/
def _validate_entra_token (cfg : AuthConfig) (env : NetEnv) (st : CacheState)
    (nowMono now : Int) (id_token : Jwt ExtClaims) :
    Except AuthErr (ExtClaims × CacheState) :=
  match _get_jwks cfg env st nowMono with
  | .error e => .error e
  | .ok (jwks, st1) =>
    if !id_token.wellFormed then .error (.http 401 "Invalid token header")
    else if !(pyTruthy id_token.kid) then .error (.http 401 "Missing kid in token header")
    else
      match jwks.keys.find? (fun jwk => jwk.kid == id_token.kid) with
      | none => .error (.http 401 "Signing key not found for token")
      | some key =>
        match jwtDecodeExt id_token key.material [Alg.RS256] cfg.ENTRA_CLIENT_ID
            ("https://login.microsoftonline.com/" ++ cfg.ENTRA_TENANT_ID ++ "/v2.0") now with
        | .error _ => .error (.http 401 "Invalid Entra token")
        | .ok claims => .ok (claims, st1)

/-- Source `TokenResponse` as returned by the auth endpoints; the two token strings
are modelled by the signed tokens they encode. -/
structure TokenResponse where
  access_token : Jwt InternalClaims
  refresh_token : Jwt InternalClaims
  expires_in : Int
deriving DecidableEq, Repr

/-- Source `_issue_internal_tokens`: mint the access/refresh pair.  The access
payload carries `device_id` (possibly `None`) and type `"access"` with a
lifetime of `INTERNAL_JWT_TTL_HOURS` hours; the refresh payload carries no
`device_id` key and type `"refresh"` with a lifetime of
`INTERNAL_REFRESH_TTL_DAYS` days; both are signed HS256 with the one
internal secret, and `expires_in` is the access lifetime in seconds. -/
def _issue_internal_tokens (cfg : AuthConfig) (now : Int) (subject : String)
    (device_id : Option String := none) : TokenResponse :=
  let access_payload : InternalClaims :=
    { sub := some subject, device_id := some device_id, typ := some "access",
      exp := now + cfg.INTERNAL_JWT_TTL_HOURS * 3600 }
  let refresh_payload : InternalClaims :=
    { sub := some subject, typ := some "refresh",
      exp := now + cfg.INTERNAL_REFRESH_TTL_DAYS * 86400 }
  { access_token := { alg := INTERNAL_JWT_ALG, claims := access_payload,
                      sig := .hmac cfg.INTERNAL_JWT_SECRET }
    refresh_token := { alg := INTERNAL_JWT_ALG, claims := refresh_payload,
                       sig := .hmac cfg.INTERNAL_JWT_SECRET }
    expires_in := cfg.INTERNAL_JWT_TTL_HOURS * 3600 }

/-- Request body of `POST /auth/verify`. -/
structure VerifyRequest where
  id_token : Jwt ExtClaims
  device_id : Option String := none

/-- Request body of `POST /auth/refresh`. -/
structure RefreshRequest where
  refresh_token : Jwt InternalClaims

/-- Source `POST /auth/verify`: validate the Entra token, extract the subject as
`claims.get("oid") or claims.get("sub")`, reject a falsy subject with 401,
and issue the internal pair bound to the request's `device_id`. -/
def verify (cfg : AuthConfig) (env : NetEnv) (st : CacheState)
    (nowMono now : Int) (req : VerifyRequest) :
    Except AuthErr (TokenResponse × CacheState) :=
  match _validate_entra_token cfg env st nowMono now req.id_token with
  | .error e => .error e
  | .ok (claims, st1) =>
    match pyOr claims.oid claims.sub with
    | none => .error (.http 401 "Token has no subject")
    | some s =>
      if s = "" then .error (.http 401 "Token has no subject")
      else .ok (_issue_internal_tokens cfg now s req.device_id, st1)

/-- Source `POST /auth/refresh`: decode the refresh token with the internal secret
(401 on any decode failure), reject a non-refresh type claim with 400,
reject a falsy subject with 400, and re-issue a fresh pair — with the
Python default `device_id=None`. -/
def refresh (cfg : AuthConfig) (now : Int) (req : RefreshRequest) :
    Except AuthErr TokenResponse :=
  match jwtDecode req.refresh_token cfg.INTERNAL_JWT_SECRET [INTERNAL_JWT_ALG] now with
  | .error _ => .error (.http 401 "Invalid refresh token")
  | .ok payload =>
    if payload.typ ≠ some "refresh" then
      .error (.http 400 "Token is not a refresh token")
    else
      match payload.sub with
      | none => .error (.http 400 "Refresh token has no subject")
      | some s =>
        if s = "" then .error (.http 400 "Refresh token has no subject")
        else .ok (_issue_internal_tokens cfg now s)

-- ── LLM gateway auth guard (`servers/llm_gateway.py`) ─────────────────────

/-- Source `_extract_token`: prefer a `Bearer`-prefixed `Authorization` header over
`X-Api-Key`; 401 if neither carries a credential.  A header value is
modelled as the token it carries (`some tok` stands for a present,
`Bearer`-prefixed header whose token part is `tok`). -/
def _extract_token (authorization x_api_key : Option (Jwt InternalClaims)) :
    Except AuthErr (Jwt InternalClaims) :=
  match authorization with
  | some tok => .ok tok
  | none =>
    match x_api_key with
    | some tok => .ok tok
    | none => .error (.http 401 "Missing auth (Bearer or X-Api-Key)")

/-- Source `get_current_user`: refuse to operate under the placeholder secret (500),
extract the credential, decode it with the internal secret (401 on failure),
and reject any token whose `type` claim is not `"access"` (401). -/
def get_current_user (secret : String) (now : Int)
    (authorization x_api_key : Option (Jwt InternalClaims)) :
    Except AuthErr InternalClaims :=
  if secret = "" ∨ secret = "CHANGE_ME_INTERNAL_JWT_SECRET" then
    .error (.http 500 "Gateway is not configured (INTERNAL_JWT_SECRET)")
  else
    match _extract_token authorization x_api_key with
    | .error e => .error e
    | .ok token =>
      match jwtDecode token secret [INTERNAL_JWT_ALG] now with
      | .error _ => .error (.http 401 "Invalid internal token")
      | .ok payload =>
        if payload.typ ≠ some "access" then
          .error (.http 401 "Token is not an access token")
        else .ok payload

-- ── Client token cache (`client/agent.py`) ─────────────────────────────────

/-- Source `JWT_REFRESH_MARGIN_SECONDS = 300` (`config.py:33`). -/
def JWT_REFRESH_MARGIN_SECONDS : Int := 300

/-- Source `JWT_TTL_SECONDS = 10800` (`config.py:34`). -/
def JWT_TTL_SECONDS : Int := 10800

/-- The persisted token pair (`TokenData`); the client treats the token
strings as opaque. -/
structure TokenData where
  access_token : String
  refresh_token : String
  expires_at : Int
deriving DecidableEq, Repr

/-- Source `TokenData.is_expiring_soon`: true when the token expires within
`margin_seconds` of `now` (`expires_at - int(time.time()) < margin`). -/
def TokenData.is_expiring_soon (t : TokenData) (now : Int)
    (margin_seconds : Int := JWT_REFRESH_MARGIN_SECONDS) : Bool :=
  t.expires_at - now < margin_seconds

/-- JSON body of a successful auth-server token response as the client
reads it. -/
structure TokenEndpointResponse where
  access_token : String
  refresh_token : String
  expires_in : Int
deriving DecidableEq, Repr

/-- Errors escaping the client token functions: a propagated
`httpx.HTTPError` (from `raise_for_status` or the transport), or a
`RuntimeError` from the MSAL device-code identity flow. -/
inductive ClientError
  | httpError
  | identityError
deriving DecidableEq, Repr

/-- The client's effectful environment: the wall clock, the device id probe,
the outcome of the `az` CLI shortcut, of the MSAL device-code flow, and of
the two auth-server calls. -/
structure ClientEnv where
  now : Int
  device_id : Option String
  az_token : Option String
  msal_token : Except Unit String
  verify_response : Except Unit TokenEndpointResponse
  refresh_response : Except Unit TokenEndpointResponse

/-- Source `exchange_entra_for_internal_token`: POST `/auth/verify`;
`raise_for_status` propagates HTTP failures; on success the pair is stored
with `expires_at = now + expires_in`. -/
def exchange_entra_for_internal_token (env : ClientEnv) : Except ClientError TokenData :=
  match env.verify_response with
  | .error _ => .error .httpError
  | .ok d => .ok ⟨d.access_token, d.refresh_token, env.now + d.expires_in⟩

/-- Source `refresh_internal_token`: POST `/auth/refresh`; `raise_for_status`
propagates HTTP failures (no fallback here); on success the new pair is
saved with `expires_at = now + expires_in`. -/
def refresh_internal_token (env : ClientEnv) (_token : TokenData) :
    Except ClientError TokenData :=
  match env.refresh_response with
  | .error _ => .error .httpError
  | .ok d => .ok ⟨d.access_token, d.refresh_token, env.now + d.expires_in⟩

/-- Source `ensure_token`: with no cached token, run the full identity flow
(`az` CLI, else MSAL device code — whose failure is a `RuntimeError`) and
exchange the external token; with a cached token, refresh it when it is
expiring soon (any refresh failure propagates), else return it as is. -/
def ensure_token (env : ClientEnv) (stored : Option TokenData) :
    Except ClientError TokenData :=
  match stored with
  | none =>
    match env.az_token with
    | some _ => exchange_entra_for_internal_token env
    | none =>
      match env.msal_token with
      | .error _ => .error .identityError
      | .ok _ => exchange_entra_for_internal_token env
  | some token =>
    if token.is_expiring_soon env.now then refresh_internal_token env token
    else .ok token

-- ── Helpers and shared lemmas ──────────────────────────────────────────────

/-- True exactly when an `Except` value is an error. -/
def isErr {ε α : Type} : Except ε α → Bool
  | .error _ => true
  | .ok _ => false

/-- A successful symbolic decode returns exactly the token's claims. -/
lemma jwtDecode_ok_claims {tok : Jwt InternalClaims} {secret : String}
    {algorithms : List Alg} {now : Int} {c : InternalClaims}
    (h : jwtDecode tok secret algorithms now = .ok c) : c = tok.claims := by
  unfold jwtDecode at h
  split at h
  · exact absurd h (by simp)
  · split at h
    · exact absurd h (by simp)
    · split at h
      · exact absurd h (by simp)
      · split at h
        · exact absurd h (by simp)
        · exact (Except.ok.injEq _ _ ▸ h).symm

-- ── Fixtures used by concrete witnesses and counterexamples ───────────────

/-- A well-configured server (non-placeholder tenant, client and secret). -/
def cfgA : AuthConfig :=
  { ENTRA_TENANT_ID := "tenant-a", ENTRA_CLIENT_ID := "client-a",
    INTERNAL_JWT_SECRET := "s3cret", INTERNAL_JWT_TTL_HOURS := 3,
    INTERNAL_REFRESH_TTL_DAYS := 30, OPENID_CACHE_TTL_SECONDS := 3600 }

/-- A token validly signed with `cfgA`'s secret whose type claim is
`"access"` — the wrong type for the refresh endpoint. -/
def accessTypeToken : Jwt InternalClaims :=
  { alg := .HS256,
    claims := { sub := some "alice", device_id := some (some "dev-1"),
                typ := some "access", exp := 1000 },
    sig := .hmac "s3cret" }

/-- A token validly signed with `cfgA`'s secret whose type claim is
`"refresh"`. -/
def refreshTypeToken : Jwt InternalClaims :=
  { alg := .HS256,
    claims := { sub := some "alice", typ := some "refresh", exp := 1000 },
    sig := .hmac "s3cret" }

/-- A token validly signed with `cfgA`'s secret that carries no type claim
at all. -/
def typelessToken : Jwt InternalClaims :=
  { alg := .HS256,
    claims := { sub := some "bob", exp := 1000 },
    sig := .hmac "s3cret" }

-- ── C8 ─────────────────────────────────────────────────────────────────────

/-- C8: `_issue_internal_tokens` mints both tokens together: the access
token's claims carry the `device_id` value and type `"access"` with expiry
`now + ttl_hours·3600`; the refresh token's claims carry no `device_id`
key and type `"refresh"` with expiry `now + ttl_days·86400`; the returned
`expires_in` equals the access-token lifetime in seconds, never the refresh
token's longer lifetime. -/
theorem issue_internal_tokens_pair_shape (cfg : AuthConfig) (now : Int)
    (subject : String) (device_id : Option String) :
    ((_issue_internal_tokens cfg now subject device_id).access_token.claims.device_id
        = some device_id) ∧
    ((_issue_internal_tokens cfg now subject device_id).access_token.claims.typ
        = some "access") ∧
    ((_issue_internal_tokens cfg now subject device_id).access_token.claims.exp
        = now + cfg.INTERNAL_JWT_TTL_HOURS * 3600) ∧
    ((_issue_internal_tokens cfg now subject device_id).refresh_token.claims.device_id
        = none) ∧
    ((_issue_internal_tokens cfg now subject device_id).refresh_token.claims.typ
        = some "refresh") ∧
    ((_issue_internal_tokens cfg now subject device_id).refresh_token.claims.exp
        = now + cfg.INTERNAL_REFRESH_TTL_DAYS * 86400) ∧
    ((_issue_internal_tokens cfg now subject device_id).expires_in
        = cfg.INTERNAL_JWT_TTL_HOURS * 3600) :=
  ⟨rfl, rfl, rfl, rfl, rfl, rfl, rfl⟩

-- ── C10 ────────────────────────────────────────────────────────────────────

/-- C10: every successful `POST /auth/refresh` issues an access token whose
`device_id` claim is present but null — issuance is invoked with the Python
default `device_id=None`, so device binding is dropped by every refresh. -/
theorem refresh_drops_device_binding (cfg : AuthConfig) (now : Int)
    (req : RefreshRequest) (resp : TokenResponse)
    (h : refresh cfg now req = .ok resp) :
    resp.access_token.claims.device_id = some none := by
  unfold refresh at h
  split at h
  · exact absurd h (by simp)
  · split at h
    · exact absurd h (by simp)
    · split at h
      · exact absurd h (by simp)
      · split at h
        · exact absurd h (by simp)
        · cases h
          rfl

/-- C10 witness: a concrete successful refresh against `cfgA` whose result
carries a null `device_id` in the access claims. -/
theorem refresh_drops_device_binding_witness :
    refresh cfgA 0 ⟨refreshTypeToken⟩ = .ok (_issue_internal_tokens cfgA 0 "alice") ∧
    (_issue_internal_tokens cfgA 0 "alice").access_token.claims.device_id = some none :=
  ⟨rfl, refresh_drops_device_binding cfgA 0 ⟨refreshTypeToken⟩
      (_issue_internal_tokens cfgA 0 "alice") rfl⟩

-- ── C6 ─────────────────────────────────────────────────────────────────────

/-- C6: the two type checks are mutually exclusive — a token whose type claim
is `"refresh"` is never accepted by the gateway's access-token check
(`get_current_user`), however it reaches the guard and whatever secret and
clock are in force, and a token whose type claim is `"access"` is never
accepted by the refresh endpoint. -/
theorem token_type_cross_rejection (secret : String) (now now2 : Int)
    (cfg : AuthConfig) (authorization x_api_key : Option (Jwt InternalClaims))
    (tokR tokA : Jwt InternalClaims)
    (hextract : _extract_token authorization x_api_key = .ok tokR)
    (hR : tokR.claims.typ = some "refresh")
    (hA : tokA.claims.typ = some "access") :
    isErr (get_current_user secret now authorization x_api_key) = true ∧
    isErr (refresh cfg now2 ⟨tokA⟩) = true := by
  constructor
  · unfold get_current_user
    split
    · rfl
    · cases hdec : jwtDecode tokR secret [INTERNAL_JWT_ALG] now with
      | error e => simp [hextract, hdec, isErr]
      | ok payload =>
        have hc : payload = tokR.claims := jwtDecode_ok_claims hdec
        have hne : payload.typ ≠ some "access" := by rw [hc, hR]; simp
        simp [hextract, hdec, hne, isErr]
  · unfold refresh
    cases hdec : jwtDecode tokA cfg.INTERNAL_JWT_SECRET [INTERNAL_JWT_ALG] now2 with
    | error e => simp [hdec, isErr]
    | ok payload =>
      have hc : payload = tokA.claims := jwtDecode_ok_claims hdec
      have hne : payload.typ ≠ some "refresh" := by rw [hc, hA]; simp
      simp [hdec, hne, isErr]

/-- C6 witness: with `cfgA`'s secret, a concrete validly signed refresh-type
token is rejected by the gateway and a concrete validly signed access-type
token is rejected by the refresh endpoint. -/
theorem token_type_cross_rejection_witness :
    _extract_token (some refreshTypeToken) none = .ok refreshTypeToken ∧
    refreshTypeToken.claims.typ = some "refresh" ∧
    accessTypeToken.claims.typ = some "access" ∧
    isErr (get_current_user "s3cret" 0 (some refreshTypeToken) none) = true ∧
    isErr (refresh cfgA 0 ⟨accessTypeToken⟩) = true := by
  refine ⟨rfl, rfl, rfl, ?_⟩
  exact token_type_cross_rejection "s3cret" 0 0 cfgA (some refreshTypeToken) none
    refreshTypeToken accessTypeToken rfl rfl rfl

-- ── C2 ─────────────────────────────────────────────────────────────────────

/-- C2 counterexample: a validly signed token whose type claim is `"access"`
(not `"refresh"`) submitted to `POST /auth/refresh` yields HTTP status 400,
not the 401 the claim requires (400 is not reserved for a missing
subject). -/
theorem refresh_wrong_type_is_400_not_401 :
    refresh cfgA 0 ⟨accessTypeToken⟩ =
      .error (AuthErr.http 400 "Token is not a refresh token") := rfl

/-- C2 amended: every validly signed, unexpired token whose type claim is not
`"refresh"` makes `POST /auth/refresh` respond with HTTP 400 ("Token is not
a refresh token") — the same status class as a missing subject; 401 is
returned only when the token fails signature, format or expiry
validation. -/
theorem refresh_wrong_type_is_400 (cfg : AuthConfig) (now : Int)
    (tok : Jwt InternalClaims) (hw : tok.wellFormed = true)
    (halg : tok.alg = Alg.HS256)
    (hsig : tok.sig = Sig.hmac cfg.INTERNAL_JWT_SECRET)
    (hexp : now < tok.claims.exp)
    (hty : tok.claims.typ ≠ some "refresh") :
    refresh cfg now ⟨tok⟩ =
      .error (AuthErr.http 400 "Token is not a refresh token") := by
  have hdec : jwtDecode tok cfg.INTERNAL_JWT_SECRET [INTERNAL_JWT_ALG] now
      = .ok tok.claims := by
    unfold jwtDecode
    have hnexp : ¬ tok.claims.exp ≤ now := by omega
    simp [hw, halg, hsig, hnexp, INTERNAL_JWT_ALG, verifySig]
  unfold refresh
  rw [hdec]
  simp [hty]

/-- C2 witness: the amended statement evaluated on a concrete validly signed
token whose type claim is absent. -/
theorem refresh_wrong_type_is_400_witness :
    typelessToken.wellFormed = true ∧
    typelessToken.alg = Alg.HS256 ∧
    typelessToken.sig = Sig.hmac cfgA.INTERNAL_JWT_SECRET ∧
    (0 : Int) < typelessToken.claims.exp ∧
    typelessToken.claims.typ ≠ some "refresh" ∧
    refresh cfgA 0 ⟨typelessToken⟩ =
      .error (AuthErr.http 400 "Token is not a refresh token") := by
  refine ⟨rfl, rfl, rfl, by decide, by decide, ?_⟩
  exact refresh_wrong_type_is_400 cfgA 0 typelessToken rfl rfl rfl (by decide) (by decide)

-- ── C4 ─────────────────────────────────────────────────────────────────────

/-- A cached pair whose access token expires at t=10800 (issued at t=0 with
`expires_in = 10800`). -/
def tok10800 : TokenData := { access_token := "acc", refresh_token := "ref", expires_at := 10800 }

/-- A client environment at time `t` in which every network interaction
fails, so any refresh or re-acquisition attempt is observable as an
error. -/
def envNoNet (t : Int) : ClientEnv :=
  { now := t, device_id := none, az_token := none, msal_token := .error (),
    verify_response := .error (), refresh_response := .error () }

/-- C4 counterexample: with access TTL 10800 and margin 300, a read at
exactly t=10500 does not trigger the refresh — `is_expiring_soon` is false
there and `ensure_token` serves the cached pair even though every network
call in the environment would fail, so no I/O happened.  The claim's
boundary (`fresh` iff `now < expires_at - margin`, refresh at exactly
10500) is off by one against the code. -/
theorem cache_boundary_at_10500_serves_cached :
    TokenData.is_expiring_soon tok10800 10500 = false ∧
    ensure_token (envNoNet 10500) (some tok10800) = .ok tok10800 := ⟨rfl, rfl⟩

/-- C4 amended: with access TTL 10800 seconds and refresh margin 300, a
token issued at t=0 is served from cache with no network call for every
read at t ≤ 10500, and a read at t=10501 (or later) triggers the refresh:
the cache serves without I/O precisely when `now ≤ expires_at - margin`
(equivalently `now < expires_at - margin + 1`), not when
`now < expires_at - margin`. -/
theorem cache_fresh_boundary (env : ClientEnv) (tok : TokenData)
    (h : tok.expires_at = 10800) :
    (env.now ≤ 10500 → ensure_token env (some tok) = .ok tok) ∧
    (10500 < env.now →
        ensure_token env (some tok) = refresh_internal_token env tok) ∧
    (TokenData.is_expiring_soon tok env.now = false ↔
        env.now ≤ tok.expires_at - JWT_REFRESH_MARGIN_SECONDS) := by
  refine ⟨?_, ?_, ?_⟩
  · intro ht
    have hfresh : TokenData.is_expiring_soon tok env.now = false := by
      unfold TokenData.is_expiring_soon JWT_REFRESH_MARGIN_SECONDS
      rw [h]
      simp only [decide_eq_false_iff_not, not_lt]
      omega
    simp [ensure_token, hfresh]
  · intro ht
    have hstale : TokenData.is_expiring_soon tok env.now = true := by
      unfold TokenData.is_expiring_soon JWT_REFRESH_MARGIN_SECONDS
      rw [h]
      simp only [decide_eq_true_eq]
      omega
    simp [ensure_token, hstale]
  · unfold TokenData.is_expiring_soon JWT_REFRESH_MARGIN_SECONDS
    rw [h]
    simp only [decide_eq_false_iff_not, not_lt]
    omega

/-- C4 witness: the amended boundary evaluated at the concrete times 123
(served from cache) and the cached pair of the scenario. -/
theorem cache_fresh_boundary_witness :
    tok10800.expires_at = 10800 ∧
    (123 : Int) ≤ 10500 ∧
    ensure_token (envNoNet 123) (some tok10800) = .ok tok10800 :=
  ⟨rfl, by decide, (cache_fresh_boundary (envNoNet 123) tok10800 rfl).1 (by decide)⟩

-- ── C3 ─────────────────────────────────────────────────────────────────────

/-- A client environment at t=10600 in which the refresh endpoint fails but
the full identity flow would succeed (the `az` CLI yields an external token
and `/auth/verify` answers a fresh pair). -/
def envRefreshDown : ClientEnv :=
  { now := 10600, device_id := some "dev-1", az_token := some "entra-tok",
    msal_token := .ok "entra-tok",
    verify_response := .ok { access_token := "acc2", refresh_token := "ref2", expires_in := 10800 },
    refresh_response := .error () }

/-- C3 counterexample: at t=10600 the cached pair (expiry 10800) is expiring
soon and its refresh fails; `ensure_token` surfaces the raw HTTP error
instead of falling back to the Absent state — even though in the very same
environment the full identity flow succeeds (running `ensure_token` with no
cached pair returns a fresh pair), so the failure is not an
identity-flow failure. -/
theorem ensure_token_no_fallback_on_refresh_failure :
    TokenData.is_expiring_soon tok10800 10600 = true ∧
    ensure_token envRefreshDown (some tok10800) = .error ClientError.httpError ∧
    ensure_token envRefreshDown none =
      .ok { access_token := "acc2", refresh_token := "ref2", expires_at := 10600 + 10800 } :=
  ⟨rfl, rfl, rfl⟩

/-- C3 amended: when a cached pair is expiring soon and the refresh call
fails, `ensure_token` propagates the HTTP error (it raises rather than
falling back); the full identity flow is run only when no token is cached
at all. -/
theorem ensure_token_propagates_refresh_failure (env : ClientEnv) (tok : TokenData)
    (hexp : TokenData.is_expiring_soon tok env.now = true)
    (hfail : env.refresh_response = .error ()) :
    ensure_token env (some tok) = .error ClientError.httpError := by
  simp [ensure_token, hexp, refresh_internal_token, hfail]

/-- C3 witness: the amended statement evaluated in the concrete environment
where refresh is down. -/
theorem ensure_token_propagates_refresh_failure_witness :
    TokenData.is_expiring_soon tok10800 envRefreshDown.now = true ∧
    envRefreshDown.refresh_response = .error () ∧
    ensure_token envRefreshDown (some tok10800) = .error ClientError.httpError :=
  ⟨rfl, rfl, ensure_token_propagates_refresh_failure envRefreshDown tok10800 rfl rfl⟩

-- ── C5 ─────────────────────────────────────────────────────────────────────

/-- Decoding pinned to `[RS256]` rejects any token whose header algorithm is
different, before the signature is even considered. -/
lemma jwtDecodeExt_alg_pinned (tok : Jwt ExtClaims) (keyMaterial audience issuer : String)
    (now : Int) (h : tok.alg ≠ Alg.RS256) :
    jwtDecodeExt tok keyMaterial [Alg.RS256] audience issuer now =
      .error JwtError.invalidToken := by
  unfold jwtDecodeExt
  cases halg : tok.alg with
  | RS256 => exact absurd halg h
  | HS256 => simp [halg]

/-- C5: an external token whose header declares any algorithm other than the
pinned RS256 never validates — regardless of configuration, network
environment, cache contents, clocks, key id or signature.  In particular a
token HMAC-signed with a trusted public key's material as the symmetric
secret is always rejected, because the header's algorithm is never used to
select the verification path. -/
theorem validate_entra_rejects_non_rs256 (cfg : AuthConfig) (env : NetEnv)
    (st : CacheState) (nowMono now : Int) (id_token : Jwt ExtClaims)
    (h : id_token.alg ≠ Alg.RS256) :
    isErr (_validate_entra_token cfg env st nowMono now id_token) = true := by
  unfold _validate_entra_token
  split
  · rfl
  · split
    · rfl
    · split
      · rfl
      · split
        · rfl
        · rw [jwtDecodeExt_alg_pinned _ _ _ _ _ h]
          rfl

/-- The key the issuer publishes under kid `"kid1"`. -/
def jwkTrusted : Jwk := { kid := some "kid1", material := "rsa-pub-1" }

/-- A network environment whose discovery and key-set fetches succeed and
publish exactly `jwkTrusted`. -/
def envWithKeys : NetEnv :=
  { openidFetch := .ok { jwks_uri := "jwks-uri" },
    jwksFetch := fun _ => .ok { keys := [jwkTrusted] } }

/-- An algorithm-confusion token: header algorithm HS256, a known key id,
plausible claims for `cfgA`, and an HMAC computed over the trusted public
key's material — the classic downgrade attempt. -/
def confusionToken : Jwt ExtClaims :=
  { alg := .HS256, kid := some "kid1",
    claims := { oid := some "alice", sub := some "alice", aud := "client-a",
                iss := "https://login.microsoftonline.com/tenant-a/v2.0", exp := 9999 },
    sig := .hmac "rsa-pub-1" }

/-- C5 witness: the confusion token would verify as an HMAC under the
trusted key's material, yet `_validate_entra_token` rejects it. -/
theorem validate_entra_rejects_non_rs256_witness :
    confusionToken.alg ≠ Alg.RS256 ∧
    verifySig Alg.HS256 jwkTrusted.material confusionToken.sig = true ∧
    isErr (_validate_entra_token cfgA envWithKeys {} 0 0 confusionToken) = true :=
  ⟨by decide, rfl,
    validate_entra_rejects_non_rs256 cfgA envWithKeys {} 0 0 confusionToken (by decide)⟩

-- ── C7 ─────────────────────────────────────────────────────────────────────

/-- A successful external validation returns exactly the token's claims
(together with the possibly updated cache). -/
lemma validate_entra_ok_claims {cfg : AuthConfig} {env : NetEnv} {st : CacheState}
    {nowMono now : Int} {id_token : Jwt ExtClaims} {claims : ExtClaims} {st1 : CacheState}
    (h : _validate_entra_token cfg env st nowMono now id_token = .ok (claims, st1)) :
    claims = id_token.claims := by
  unfold _validate_entra_token at h
  split at h
  · exact absurd h (by simp)
  · split at h
    · exact absurd h (by simp)
    · split at h
      · exact absurd h (by simp)
      · split at h
        · exact absurd h (by simp)
        · split at h
          · exact absurd h (by simp)
          · rename_i hdec
            unfold jwtDecodeExt at hdec
            split at hdec
            · exact absurd hdec (by simp)
            · split at hdec
              · exact absurd hdec (by simp)
              · split at hdec
                · exact absurd hdec (by simp)
                · split at hdec
                  · exact absurd hdec (by simp)
                  · split at hdec
                    · exact absurd hdec (by simp)
                    · split at hdec
                      · exact absurd hdec (by simp)
                      · cases hdec
                        cases h
                        rfl

/-- C7: for every external token that passes validation, `POST /auth/verify`
issues a pair whose access claims' subject equals the external token's
subject — the `oid` claim when present and non-empty, otherwise the `sub`
claim (Python `claims.get("oid") or claims.get("sub")`); when neither
yields a non-empty subject the endpoint fails with 401 and no tokens are
issued. -/
theorem verify_subject_comes_from_external_token (cfg : AuthConfig) (env : NetEnv)
    (st : CacheState) (nowMono now : Int) (req : VerifyRequest)
    (claims : ExtClaims) (st1 : CacheState)
    (h : _validate_entra_token cfg env st nowMono now req.id_token = .ok (claims, st1)) :
    (∀ s, pyOr req.id_token.claims.oid req.id_token.claims.sub = some s → s ≠ "" →
        verify cfg env st nowMono now req =
          .ok (_issue_internal_tokens cfg now s req.device_id, st1) ∧
        (_issue_internal_tokens cfg now s req.device_id).access_token.claims.sub = some s) ∧
    (pyTruthy (pyOr req.id_token.claims.oid req.id_token.claims.sub) = false →
        verify cfg env st nowMono now req = .error (AuthErr.http 401 "Token has no subject")) := by
  have hc : claims = req.id_token.claims := validate_entra_ok_claims h
  subst hc
  constructor
  · intro s hs hne
    refine ⟨?_, rfl⟩
    simp only [verify, h]
    rw [hs]
    simp [hne]
  · intro hfalsy
    cases hor : pyOr req.id_token.claims.oid req.id_token.claims.sub with
    | none =>
      simp only [verify, h]
      rw [hor]
    | some s =>
      have hs : s = "" := by
        rw [hor] at hfalsy
        unfold pyTruthy at hfalsy
        simpa using hfalsy
      simp only [verify, h]
      rw [hor]
      simp [hs]

/-- A valid external token for `cfgA`, RS256-signed under the trusted key,
carrying both `oid` and `sub`. -/
def validExtToken : Jwt ExtClaims :=
  { alg := .RS256, kid := some "kid1",
    claims := { oid := some "alice-oid", sub := some "alice-sub", aud := "client-a",
                iss := "https://login.microsoftonline.com/tenant-a/v2.0", exp := 9999 },
    sig := .rsa "rsa-pub-1" }

/-- Cache state after a cold `_get_jwks` against `envWithKeys` at monotonic
time 0. -/
def stWarm : CacheState :=
  { openidCache := some ({ jwks_uri := "jwks-uri" }, 0),
    jwksCache := some ({ keys := [jwkTrusted] }, 0) }

/-- C7 witness: a concrete valid token with `oid = "alice-oid"` yields a pair
whose access subject is `"alice-oid"` (the `oid` wins over `sub`). -/
theorem verify_subject_comes_from_external_token_witness :
    _validate_entra_token cfgA envWithKeys {} 0 5 validExtToken =
      .ok (validExtToken.claims, stWarm) ∧
    pyOr validExtToken.claims.oid validExtToken.claims.sub = some "alice-oid" ∧
    verify cfgA envWithKeys {} 0 5 ⟨validExtToken, some "dev-7"⟩ =
      .ok (_issue_internal_tokens cfgA 5 "alice-oid" (some "dev-7"), stWarm) ∧
    (_issue_internal_tokens cfgA 5 "alice-oid" (some "dev-7")).access_token.claims.sub
      = some "alice-oid" := by
  refine ⟨rfl, rfl, ?_⟩
  exact (verify_subject_comes_from_external_token cfgA envWithKeys {} 0 5
      ⟨validExtToken, some "dev-7"⟩ validExtToken.claims stWarm rfl).1
    "alice-oid" rfl (by decide)

-- ── C1 ─────────────────────────────────────────────────────────────────────

/-- The server left with the inert placeholder signing secret (tenant and
client set, `INTERNAL_JWT_SECRET` untouched). -/
def cfgPlaceholder : AuthConfig :=
  { ENTRA_TENANT_ID := "tenant-a", ENTRA_CLIENT_ID := "client-a",
    INTERNAL_JWT_SECRET := "CHANGE_ME_INTERNAL_JWT_SECRET",
    INTERNAL_JWT_TTL_HOURS := 3, INTERNAL_REFRESH_TTL_DAYS := 30,
    OPENID_CACHE_TTL_SECONDS := 3600 }

/-- A refresh token anyone can forge: HMAC-signed with the publicly known
placeholder secret. -/
def forgedPlaceholderRefreshToken : Jwt InternalClaims :=
  { alg := .HS256,
    claims := { sub := some "attacker", typ := some "refresh", exp := 9999 },
    sig := .hmac "CHANGE_ME_INTERNAL_JWT_SECRET" }

/-- C1 (divergence): the configuration guard lives in `_get_openid_config`,
which `POST /auth/verify` reaches (so `verify` hard-fails with HTTP 500
under the placeholder secret on a cold cache) — but `POST /auth/refresh`
never runs it: with the secret still at its placeholder, `refresh` accepts
a token forged with the publicly known placeholder and silently signs a
fresh pair with that same placeholder secret, instead of failing with a
configuration error. -/
theorem refresh_operates_under_placeholder_secret :
    refresh cfgPlaceholder 0 ⟨forgedPlaceholderRefreshToken⟩ =
      .ok (_issue_internal_tokens cfgPlaceholder 0 "attacker") ∧
    (_issue_internal_tokens cfgPlaceholder 0 "attacker").access_token.sig =
      Sig.hmac "CHANGE_ME_INTERNAL_JWT_SECRET" ∧
    (_issue_internal_tokens cfgPlaceholder 0 "attacker").refresh_token.sig =
      Sig.hmac "CHANGE_ME_INTERNAL_JWT_SECRET" ∧
    verify cfgPlaceholder envWithKeys {} 0 0 ⟨validExtToken, none⟩ =
      .error (AuthErr.http 500 "Auth server is not configured (INTERNAL_JWT_SECRET)") :=
  ⟨rfl, rfl, rfl, rfl⟩

end ClaudeCodeInternal
